import Mathlib

/-!
Verification development for the conversational AI interaction core of the
Edumatee study assistant.  The definitions below are shallow embeddings of
the TypeScript source: the chat-panel streaming consumers
(`components/ProjectPlanner.tsx` Explainer and InterviewTrainer,
`components/CodeGenerator.tsx`), the model gateway service functions,
the structured-output handling, and the speech hook (`useSpeech`).
-/

/-! ## Data model (from types.ts) -/

/-- Role of a conversation message, from the `role` field of `Message`
in types.ts (literal union of the strings user and model). -/
inductive Role where
  | user
  | model
deriving DecidableEq, Repr

/-- Optional attachment info of a `Message` (types.ts `fileInfo`). -/
structure FileInfo where
  name : String
  type : String
deriving DecidableEq, Repr

/-- Conversation message, from `interface Message` in types.ts. -/
structure Message where
  id : String
  role : Role
  content : String
  fileInfo : Option FileInfo := none
deriving DecidableEq, Repr

/-- Class note, from `interface Note` in types.ts. -/
structure Note where
  id : String
  title : String
  subject : String
  content : String
  lastModified : String
deriving DecidableEq, Repr

/-! ## Streaming consumer (Explainer.handleSendMessage and
InterviewTrainer.handleSendMessage in components/ProjectPlanner.tsx)

The streaming loop in both handlers is

  let fullResponse = such that: for each chunk, fullResponse += chunk.text;
  setMessages(prev => prev.map(m => m.id === modelMessage.id
                                      ? ... content: fullResponse ... : m))

so each chunk appends to the accumulator and then overwrites the content of
every message whose id equals the placeholder id with the whole accumulator. -/

/-- One `setMessages` update of the streaming loop: replace the content of the
message(s) with the placeholder id by the full accumulated text. -/
def applyChunk (msgs : List Message) (mid : String) (full : String) : List Message :=
  msgs.map (fun m => if m.id = mid then { m with content := full } else m)

/-- The `for await (const chunk of stream)` loop body of `handleSendMessage`:
for each text fragment, grow the accumulator and write it into the
in-progress message. -/
def runStream (msgs : List Message) (mid : String) (acc : String) :
    List String → List Message
  | [] => msgs
  | c :: cs => runStream (applyChunk msgs mid (acc ++ c)) mid (acc ++ c) cs

/-- Plain concatenation of a fragment list in emission order. -/
def concatAll : List String → String
  | [] => ""
  | c :: cs => c ++ concatAll cs

/-- The model-message placeholder opened by `handleSendMessage`:
`{ id, role: model, content: empty }`. -/
def mkModelMessage (mid : String) : Message :=
  { id := mid, role := Role.model, content := "" }

/-- Content of the message with the given id, if present (first match,
as `messages.find`). -/
def contentOf (msgs : List Message) (mid : String) : Option String :=
  (msgs.find? (fun m => m.id == mid)).map (fun m => m.content)

/-- The successful-stream path of `handleSendMessage`: append the user
message and the empty model placeholder, then run the streaming loop over
the emitted fragments. -/
def handleSendStream (prev : List Message) (userMsg : Message) (mid : String)
    (chunks : List String) : List Message :=
  runStream (prev ++ [userMsg, mkModelMessage mid]) mid "" chunks

/-- Outcome of one streamed request: either the stream completes after
emitting `chunks`, or it fails (at the initial call or mid-stream) after
emitting `consumed` fragments, with `err = some m` when the thrown value is
an Error with message m and `none` otherwise. -/
inductive StreamOutcome where
  | success (chunks : List String)
  | failure (consumed : List String) (err : Option String)
deriving DecidableEq, Repr

/-- The catch-branch content derivation of `handleSendMessage`:
`err instanceof Error ? err.message : ...unknown error...`. -/
def errContent : Option String → String
  | some msg => msg
  | none => "Sorry, an unknown error occurred."

/-- Full `handleSendMessage` effect on the message list, covering both the
try branch (stream runs to completion) and the catch branch (the content of
the still-open model message is overwritten with a marked error message). -/
def handleSendOutcome (prev : List Message) (userMsg : Message) (mid : String) :
    StreamOutcome → List Message
  | StreamOutcome.success chunks =>
      runStream (prev ++ [userMsg, mkModelMessage mid]) mid "" chunks
  | StreamOutcome.failure consumed err =>
      applyChunk (runStream (prev ++ [userMsg, mkModelMessage mid]) mid "" consumed)
        mid ("**Error:** " ++ errContent err)

/-! ## Model gateway (the service module importing @google/genai)

The module reads `process.env.API_KEY` once at load time; every exported
operation starts with `if (!apiKey) throw new Error("API key is missing.")`
before building its request.  We embed the credential as an
`Option String` (`none` models an unset environment variable) and each
operation as a function returning the request it would issue, or a
`GatewayError` when it fails before any network work. -/

/-- Gateway failure raised before any network work. -/
inductive GatewayError where
  | configurationError (message : String)
deriving DecidableEq, Repr

/-- TypeScript falsiness of the credential: `!apiKey` holds when the
environment variable is unset or the empty string. -/
def keyMissing : Option String → Bool
  | none => true
  | some s => s == ""

/-- Inline file payload passed to chat and single-shot calls. -/
structure FilePayload where
  data : String
  mimeType : String
deriving DecidableEq, Repr

/-- One request content entry built by `buildHistory`:
`{ role: msg.role, parts: [{ text: msg.content }] }`. -/
structure HistoryEntry where
  role : Role
  text : String
deriving DecidableEq, Repr

/-- `buildHistory` from the service module: map each prior message to a
role-tagged text part. -/
def buildHistory (messages : List Message) : List HistoryEntry :=
  messages.map (fun msg => { role := msg.role, text := msg.content })

/-- One part of a single-shot request body. -/
inductive RequestPart where
  | text (t : String)
  | inlineData (data : String) (mimeType : String)
deriving DecidableEq, Repr

/-- Single-shot request issued through `ai.models.generateContent`,
`ai.models.generateContentStream` or `ai.models.generateImages`. -/
structure GenerateRequest where
  model : String
  parts : List RequestPart
deriving DecidableEq, Repr

/-- Chat-session streaming request issued through
`ai.chats.create(...).sendMessageStream(...)`. -/
structure ChatStreamRequest where
  model : String
  systemInstruction : String
  history : List HistoryEntry
  message : String
  file : Option FilePayload
deriving DecidableEq, Repr

/-- Image-generation request issued through `ai.models.generateImages`. -/
structure ImageRequest where
  model : String
  prompt : String
  numberOfImages : Nat
  outputMimeType : String
  aspectRatio : String
deriving DecidableEq, Repr

/-- The explainer system instruction constant of the service module. -/
def explainerSystemInstruction : String :=
  "You are a friendly and brilliant AI academic assistant called EduLearn. Your role is to explain any academic or technical concept the user asks about. Use simple terms, examples, and analogies. Be encouraging and helpful. Where appropriate, provide visual diagrams using ASCII or Mermaid syntax, real-world examples to make the concept tangible, and ready-to-use code snippets in a suitable programming language. Format your responses using Markdown for readability."

/-- The interview-coach system instruction constant of the service module. -/
def interviewSystemInstruction : String :=
  "You are \"EduLearn,\" a friendly but professional AI Interview Coach for students in AI and Machine Learning. Your goal is to help users prepare for technical interviews. You can operate in a few modes:\n1.  **Mock Interview (Theory)**: Ask the user common ML/AI theory questions (e.g., \"What is overfitting?\", \"Explain the difference between classification and regression.\"). Wait for their answer, then provide constructive feedback and the ideal answer.\n2.  **Resume Review**: Ask the user to paste their resume text. Provide actionable feedback on its content, structure, and how well it showcases their skills for an AI/ML role.\n3.  **Behavioral Questions**: Ask common behavioral questions relevant to tech roles.\n\nStart by greeting the user and asking them what they\x27d like to focus on today (e.g., theory, resume review, etc.). Conduct the conversation in a turn-by-turn manner."

/-- The fixed instruction sentence that `generateExplanationStream` prepends
when reference notes are supplied. -/
def notesInstruction : String :=
  "Based on the following notes, please answer my question. If the answer is not in the notes, you can use your general knowledge but please mention that the information wasn\x27t in the provided material."

/-- Per-note block of the notes context:
`Subject: ...\nTitle: ...\nContent:\n...`. -/
def formatNote (n : Note) : String :=
  "Subject: " ++ n.subject ++ "\nTitle: " ++ n.title ++ "\nContent:\n" ++ n.content

/-- The notes context string: formatted notes joined by the separator
`\n\n---\n\n` (from `notes.map(...).join` in `generateExplanationStream`). -/
def notesContext (notes : List Note) : String :=
  String.intercalate "\n\n---\n\n" (notes.map formatNote)

/-- The `finalMessage` computation of `generateExplanationStream`: when
notes are supplied and non-empty, prepend the instruction sentence and the
labeled notes block to the new question; otherwise pass the question
through unchanged. -/
def buildFinalMessage (newMessage : String) (notes : Option (List Note)) : String :=
  match notes with
  | some ns =>
      if 0 < ns.length then
        notesInstruction ++ "\n\n[My Notes]\n" ++ notesContext ns
          ++ "\n\n[My Question]\n" ++ newMessage
      else newMessage
  | none => newMessage

/-- `generateExplanationStream` from the service module: guard the
credential, then create a chat session over the explainer system
instruction with the prior history and send the (possibly notes-prefixed)
message together with the optional file part. -/
def generateExplanationStream (apiKey : Option String) (history : List Message)
    (newMessage : String) (file : Option FilePayload) (notes : Option (List Note)) :
    Except GatewayError ChatStreamRequest :=
  if keyMissing apiKey then
    Except.error (GatewayError.configurationError "API key is missing.")
  else
    Except.ok
      { model := "gemini-2.5-flash"
        systemInstruction := explainerSystemInstruction
        history := buildHistory history
        message := buildFinalMessage newMessage notes
        file := file }

/-- `summarizeText` from the service module (request phase). -/
def summarizeText (apiKey : Option String) (textToSummarize : String)
    (file : Option FilePayload) : Except GatewayError GenerateRequest :=
  if keyMissing apiKey then
    Except.error (GatewayError.configurationError "API key is missing.")
  else
    Except.ok
      { model := "gemini-2.5-flash"
        parts :=
          [RequestPart.text "Please provide a concise summary of the following text/document. Focus on the key points and main ideas.",
           RequestPart.text textToSummarize]
          ++ (match file with
              | some f => [RequestPart.inlineData f.data f.mimeType]
              | none => []) }

/-- Prompt template of `generateQuiz`. -/
def quizPrompt (topic : String) : String :=
  "Generate a 5-question multiple-choice quiz on the topic: \"" ++ topic
    ++ "\". Each question should have 4 options."

/-- `generateQuiz` from the service module (request phase; the response
validation of its try/catch block is `validateStructured` below). -/
def generateQuiz (apiKey : Option String) (topic : String) :
    Except GatewayError GenerateRequest :=
  if keyMissing apiKey then
    Except.error (GatewayError.configurationError "API key is missing.")
  else
    Except.ok { model := "gemini-2.5-flash", parts := [RequestPart.text (quizPrompt topic)] }

/-- `generateImages` from the service module. -/
def generateImages (apiKey : Option String) (prompt : String)
    (numberOfImages : Nat) (aspectRatio : String) :
    Except GatewayError ImageRequest :=
  if keyMissing apiKey then
    Except.error (GatewayError.configurationError "API key is missing.")
  else
    Except.ok
      { model := "imagen-4.0-generate-001"
        prompt := prompt
        numberOfImages := numberOfImages
        outputMimeType := "image/png"
        aspectRatio := aspectRatio }

/-- Prompt template of `getSkillFeedback`. -/
def skillFeedbackPrompt (title description : String) : String :=
  "Act as a helpful and motivating student advisor. A student has set a skill goal for themselves.\n    Goal Title: \"" ++ title
    ++ "\"\n    Goal Description: \"" ++ description
    ++ "\"\n    \n    Please provide a response in JSON format that includes a creative badge name for this achievement, some positive feedback, and three tangible next steps to continue their learning journey."

/-- `getSkillFeedback` from the service module (request phase). -/
def getSkillFeedback (apiKey : Option String) (goalTitle goalDescription : String) :
    Except GatewayError GenerateRequest :=
  if keyMissing apiKey then
    Except.error (GatewayError.configurationError "API key is missing.")
  else
    Except.ok
      { model := "gemini-2.5-flash"
        parts := [RequestPart.text (skillFeedbackPrompt goalTitle goalDescription)] }

/-- Prompt template of `getProjectIdeas`. -/
def projectIdeasPrompt (interests : String) : String :=
  "I am a student looking for project ideas. My interests are: \"" ++ interests
    ++ "\". \n    Please generate 3 creative and achievable project ideas for a mini or major project. \n    For each idea, provide a title, a short description, 3-5 key features, a recommended tech stack, a suggested data source, a proposed architecture, and a deployment tip."

/-- `getProjectIdeas` from the service module (request phase). -/
def getProjectIdeas (apiKey : Option String) (interests : String) :
    Except GatewayError GenerateRequest :=
  if keyMissing apiKey then
    Except.error (GatewayError.configurationError "API key is missing.")
  else
    Except.ok
      { model := "gemini-2.5-flash"
        parts := [RequestPart.text (projectIdeasPrompt interests)] }

/-- Prompt template of `debugCode`. -/
def debugCodePrompt (code : String) : String :=
  "Act as an expert code debugger. Analyze the following code snippet, identify any errors or potential issues, and provide a detailed analysis and a corrected version.\n    \n    Code to debug:\n    \x60\x60\x60\n    " ++ code ++ "\n    \x60\x60\x60\n    "

/-- `debugCode` from the service module (request phase). -/
def debugCode (apiKey : Option String) (code : String) :
    Except GatewayError GenerateRequest :=
  if keyMissing apiKey then
    Except.error (GatewayError.configurationError "API key is missing.")
  else
    Except.ok
      { model := "gemini-2.5-flash"
        parts := [RequestPart.text (debugCodePrompt code)] }

/-- `startInterviewChat` from the service module: guard the credential, then
create a chat session over the interview system instruction with the prior
history and send the new message as its only part. -/
def startInterviewChat (apiKey : Option String) (history : List Message)
    (newMessage : String) : Except GatewayError ChatStreamRequest :=
  if keyMissing apiKey then
    Except.error (GatewayError.configurationError "API key is missing.")
  else
    Except.ok
      { model := "gemini-2.5-flash"
        systemInstruction := interviewSystemInstruction
        history := buildHistory history
        message := newMessage
        file := none }

/-- Prompt template of `generateCodeSnippetStream`. -/
def codeSnippetPrompt (prompt language : String) : String :=
  "You are an expert code generator. Generate a code snippet in " ++ language
    ++ " for the following task: \"" ++ prompt
    ++ "\". Provide a brief explanation of how the code works. Format your response in Markdown, with the code inside a correctly labeled code block."

/-- `generateCodeSnippetStream` from the service module. -/
def generateCodeSnippetStream (apiKey : Option String) (prompt language : String) :
    Except GatewayError GenerateRequest :=
  if keyMissing apiKey then
    Except.error (GatewayError.configurationError "API key is missing.")
  else
    Except.ok
      { model := "gemini-2.5-flash"
        parts := [RequestPart.text (codeSnippetPrompt prompt language)] }

/-- Prompt template of `generateWebsiteCode`. -/
def websiteCodePrompt (prompt : String) : String :=
  "Generate the complete HTML, CSS, and JavaScript code for a single-page website based on this description: \"" ++ prompt
    ++ "\". Provide the code in a single JSON object. The HTML should be a complete document, and the CSS should be self-contained. The JS should be placed in the body. Make the design modern and responsive."

/-- `generateWebsiteCode` from the service module (request phase). -/
def generateWebsiteCode (apiKey : Option String) (prompt : String) :
    Except GatewayError GenerateRequest :=
  if keyMissing apiKey then
    Except.error (GatewayError.configurationError "API key is missing.")
  else
    Except.ok
      { model := "gemini-2.5-flash"
        parts := [RequestPart.text (websiteCodePrompt prompt)] }

/-! ## Structured output handling (the try/catch blocks of generateQuiz,
getSkillFeedback, getProjectIdeas, debugCode and generateWebsiteCode)

Each structured call ends with

  try \x7b
    const jsonText = response.text.trim();
    const data = JSON.parse(jsonText);
    return data as DeclaredShape;
  \x7d catch (e) \x7b ... throw new Error("The AI returned an invalid ... format. Please try again."); \x7d

`JSON.parse` is an external library primitive; we embed its outcome on the
trimmed raw text as an `Option Json` argument (`none` models a thrown
syntax error, `some j` a successful parse to the JSON value j).  The `as`
cast performs no runtime check, so the code returns whatever value parsed. -/

/-- JSON values, the codomain of the external `JSON.parse` primitive. -/
inductive Json where
  | null
  | bool (b : Bool)
  | num (n : Int)
  | str (s : String)
  | arr (items : List Json)
  | obj (fields : List (String × Json))

/-- Recoverable format failure of a structured call, carrying the raw
response text for diagnostics and the user-facing message of the thrown
Error. -/
structure FormatError where
  rawText : String
  message : String

/-- The shared validation pattern of every structured call: on a parse
failure throw the format error; on a successful parse return the parsed
value through the unchecked `as` cast. -/
def validateStructured (rawText : String) (parsed : Option Json)
    (errorMessage : String) : Except FormatError Json :=
  match parsed with
  | some j => Except.ok j
  | none => Except.error { rawText := rawText, message := errorMessage }

/-- Whether a structured-call result is the FormatError outcome. -/
def isFormatError : Except FormatError Json → Bool
  | Except.error _ => true
  | Except.ok _ => false

/-- The user-facing message of the quiz format error. -/
def quizFormatErrorMessage : String :=
  "The AI returned an invalid quiz format. Please try again."

/-- String check of the declared quiz schema (`Type.STRING`). -/
def isJsonString : Json → Bool
  | Json.str _ => true
  | _ => false

/-- Field lookup in a JSON object. -/
def lookupField (fields : List (String × Json)) (name : String) : Option Json :=
  (fields.find? (fun f => f.1 == name)).map (fun f => f.2)

/-- Shape check of one quiz question against the declared `quizSchema`
item: an object whose required fields are a string `question`, a string
array `options` and a string `correctAnswer`. -/
def matchesQuizQuestion : Json → Bool
  | Json.obj fields =>
      (match lookupField fields "question" with
       | some v => isJsonString v
       | none => false)
      && (match lookupField fields "options" with
          | some (Json.arr items) => items.all isJsonString
          | _ => false)
      && (match lookupField fields "correctAnswer" with
          | some v => isJsonString v
          | none => false)
  | _ => false

/-- Shape check of a whole quiz response against the declared `quizSchema`:
an array of quiz-question objects. -/
def matchesQuizSchema : Json → Bool
  | Json.arr items => items.all matchesQuizQuestion
  | _ => false

/-! ## Speech synthesis (useSpeech.speak and useSpeech.cancelSpeech)

The browser `window.speechSynthesis` engine is a single global utterance
queue supporting `cancel()` (remove all utterances) and `speak(u)` (enqueue
u).  `speak` in the hook is

  if (!window.speechSynthesis || !text) return;
  const utterance = new SpeechSynthesisUtterance(text);
  ...handlers that later toggle isSpeaking...
  window.speechSynthesis.cancel();
  window.speechSynthesis.speak(utterance);

The `supported` argument models the presence of `window.speechSynthesis`. -/

/-- Synthesis-side state: the global engine utterance queue (head is the
utterance being played) and the React `isSpeaking` flag of the hook. -/
structure SynthState where
  queue : List String
  isSpeaking : Bool
deriving DecidableEq, Repr

/-- The engine `cancel()` call: removes all utterances from the queue. -/
def synthEngineCancel (st : SynthState) : SynthState :=
  { st with queue := [] }

/-- The engine `speak(u)` call: enqueues the new utterance. -/
def synthEngineSpeak (text : String) (st : SynthState) : SynthState :=
  { st with queue := st.queue ++ [text] }

/-- `speak` of the useSpeech hook: return immediately when the engine is
unavailable or the text is empty; otherwise cancel all ongoing speech and
enqueue the new utterance. -/
def speak (supported : Bool) (text : String) (st : SynthState) : SynthState :=
  if !supported || text == "" then st
  else synthEngineSpeak text (synthEngineCancel st)

/-- `cancelSpeech` of the useSpeech hook: when the engine exists, cancel
all utterances and clear the speaking flag. -/
def cancelSpeech (supported : Bool) (st : SynthState) : SynthState :=
  if supported then { queue := [], isSpeaking := false } else st

/-! ## Speech recognition (useSpeech recognition handlers)

The hook creates its recognition engine inside a React effect keyed on
[isListening, onTranscript]:

  useEffect(() => {
    recognitionRef.current = new SpeechRecognition();
    const recognition = recognitionRef.current;
    ...
    recognition.onresult = (event) => {
      const transcript = Array.from(event.results).map(r => r[0])
        .map(r => r.transcript).join(empty);
      onTranscript(transcript);
    };
    recognition.onend = () => { if (isListening) recognition.start(); };
  }, [isListening, onTranscript]);

Every effect run therefore creates a fresh SpeechRecognition instance and
points the ref at it, and the onend closure of each instance captures the
isListening value of the render that created it — it never reads the live
flag.  startListening starts recognitionRef.current only when the flag is
false and then sets it (which re-runs the effect); stopListening stops
recognitionRef.current only when the flag is true and then clears it
(which re-runs the effect).  We embed the hook as a step machine over the
created instances (each with its captured flag and its capture status),
the ref target and the React flag, emitting the transcript strings passed
to the onTranscript callback. -/

/-- One recognition alternative (`result[0]` of a result), carrying its
transcript. -/
structure SpeechAlternative where
  transcript : String
deriving DecidableEq, Repr

/-- One entry of `event.results`; `best` is the `result[0]` alternative the
handler reads. -/
structure SpeechRecognitionResult where
  best : SpeechAlternative
deriving DecidableEq, Repr

/-- The transcript computed by the onresult handler: the `result[0]`
transcripts of all results joined with the empty separator. -/
def recTranscript (results : List SpeechRecognitionResult) : String :=
  String.join ((results.map (fun r => r.best)).map (fun r => r.transcript))

/-- One SpeechRecognition instance created by an effect run:
`capturedListening` is the isListening value its onend closure captured at
creation time, `capturing` whether the engine is actively capturing
through it. -/
structure RecInstance where
  instId : Nat
  capturedListening : Bool
  capturing : Bool
deriving DecidableEq, Repr

/-- Hook state: the React isListening flag, every instance created so far
(in creation order), the id held by recognitionRef.current, and the id for
the next created instance. -/
structure HookState where
  isListening : Bool
  nextId : Nat
  instances : List RecInstance
  refId : Nat
deriving DecidableEq, Repr

/-- One run of the effect body: create a fresh SpeechRecognition instance
whose handler closures capture the current isListening value, and point
recognitionRef.current at it. -/
def effectRun (st : HookState) : HookState :=
  { isListening := st.isListening
    nextId := st.nextId + 1
    instances := st.instances
      ++ [{ instId := st.nextId, capturedListening := st.isListening,
            capturing := false }]
    refId := st.nextId }

/-- The engine start() call on the instance with the given id. -/
def startInstance (insts : List RecInstance) (i : Nat) : List RecInstance :=
  insts.map (fun r => if r.instId = i then { r with capturing := true } else r)

/-- The engine stop() call on the instance with the given id. -/
def stopInstance (insts : List RecInstance) (i : Nat) : List RecInstance :=
  insts.map (fun r => if r.instId = i then { r with capturing := false } else r)

/-- Events acting on the hook state: a re-render with a fresh onTranscript
arrow (every caller passes an inline arrow, so each render re-runs the
effect), the two caller-facing calls (each flips the flag, which also
re-runs the effect), and the two engine-driven callbacks of instance i. -/
inductive HookEvent where
  | render
  | callStart
  | callStop
  | engineEnd (i : Nat)
  | engineResult (i : Nat) (results : List SpeechRecognitionResult)
deriving DecidableEq, Repr

/-- One step of the hook machine, returning the next state and the
transcript updates emitted to the onTranscript callback during the step.
callStart starts recognitionRef.current when the flag is false, sets the
flag and re-runs the effect.  callStop stops recognitionRef.current — the
most recently created instance, not necessarily the one that was started —
when the flag is true, clears the flag and re-runs the effect.
engineEnd i is an engine-level stop of instance i while it is capturing:
the engine ends the capture and the onend closure of that same instance
restarts it exactly when its captured flag was true.  engineResult i emits
the joined transcript whenever instance i exists: the onresult handler has
no guard on the listening state. -/
def hookStep (st : HookState) : HookEvent → HookState × List String
  | HookEvent.render => (effectRun st, [])
  | HookEvent.callStart =>
      if st.isListening then (st, [])
      else
        (effectRun { st with isListening := true
                             instances := startInstance st.instances st.refId }, [])
  | HookEvent.callStop =>
      if st.isListening then
        (effectRun { st with isListening := false
                             instances := stopInstance st.instances st.refId }, [])
      else (st, [])
  | HookEvent.engineEnd i =>
      ({ st with instances := st.instances.map (fun r =>
          if r.instId = i ∧ r.capturing = true then
            { r with capturing := r.capturedListening }
          else r) }, [])
  | HookEvent.engineResult i results =>
      if st.instances.any (fun r => r.instId == i) then (st, [recTranscript results])
      else (st, [])

/-- Mount of the hook: the initial render with isListening = false followed
by the first effect run. -/
def hookInit : HookState :=
  effectRun { isListening := false, nextId := 0, instances := [], refId := 0 }

/-- Run the hook machine over an event list, collecting all emitted
transcript updates in order. -/
def runHook (st : HookState) : List HookEvent → HookState × List String
  | [] => (st, [])
  | e :: es =>
      let s1 := hookStep st e
      let s2 := runHook s1.1 es
      (s2.1, s1.2 ++ s2.2)

/-- The ChatInput onTranscript callback (components/ProjectPlanner.tsx):
`(transcript) => setText(transcript)` — the live input text is replaced
wholesale by the recognized transcript. -/
def chatInputOnTranscript (_currentText : String) (transcript : String) : String :=
  transcript

/-- Effect of one engine result event on the ChatInput live text: the
onresult handler joins the event results and the callback replaces the
input field content with it. -/
def chatInputOnResult (currentText : String)
    (results : List SpeechRecognitionResult) : String :=
  chatInputOnTranscript currentText (recTranscript results)

/-! ## Send serialization (InterviewTrainer.handleSendMessage guard and the
ChatInput submit control in components/ProjectPlanner.tsx)

handleSendMessage starts with `if (!input.trim() || isLoading) return;`,
sets isLoading true while the stream is open, and resets it in the finally
block once the stream is finalized or fails.  We embed the panel as a step
machine over the loading flag and the count of in-progress turns. -/

/-- Panel state: the React isLoading flag and the number of assistant turns
currently in the in-progress state. -/
structure PanelState where
  isLoading : Bool
  openTurns : Nat
deriving DecidableEq, Repr

/-- Panel events: a send attempt with the typed input, and the settling of
the open stream (completion or failure, the finally block). -/
inductive PanelEvent where
  | send (input : String)
  | streamSettled
deriving DecidableEq, Repr

/-- One step of the panel machine.  A send attempt is dropped when the
trimmed input is empty or a stream is already open; otherwise it opens an
in-progress turn and sets the loading flag.  Stream settlement closes the
open turn and clears the flag. -/
def panelStep (st : PanelState) : PanelEvent → PanelState
  | PanelEvent.send input =>
      if input.trim == "" || st.isLoading then st
      else { isLoading := true, openTurns := st.openTurns + 1 }
  | PanelEvent.streamSettled =>
      if st.isLoading then { isLoading := false, openTurns := st.openTurns - 1 }
      else st

/-- Initial panel state: not loading, no in-progress turn. -/
def panelInit : PanelState :=
  { isLoading := false, openTurns := 0 }

/-- Run the panel machine over an event list. -/
def runPanel (st : PanelState) : List PanelEvent → PanelState
  | [] => st
  | e :: es => runPanel (panelStep st e) es

/-- Guard of ChatInput.handleSend:
`if ((text.trim() || selectedFile) && !isLoading)` — whether the send
callback fires at all. -/
def chatInputSendFires (text : String) (hasFile : Bool) (isLoading : Bool) : Bool :=
  (!(text.trim == "") || hasFile) && !isLoading

/-- Disabled attribute of the ChatInput submit button:
`isLoading || (!text.trim() && !selectedFile)`. -/
def chatInputSendDisabled (isLoading : Bool) (text : String) (hasFile : Bool) : Bool :=
  isLoading || ((text.trim == "") && !hasFile)

/-! ## Helper lemmas -/

/-- Unfolding of `contentOf` on a cons cell. -/
theorem contentOf_cons (m : Message) (ms : List Message) (mid : String) :
    contentOf (m :: ms) mid =
      if m.id = mid then some m.content else contentOf ms mid := by
  by_cases hm : m.id = mid
  · simp [contentOf, List.find?_cons, hm]
  · simp [contentOf, List.find?_cons, hm]

/-- A chunk update sets the looked-up content to the full accumulator,
whenever a message with the placeholder id is present. -/
theorem contentOf_applyChunk (msgs : List Message) (mid s : String)
    (h : (contentOf msgs mid).isSome) :
    contentOf (applyChunk msgs mid s) mid = some s := by
  induction msgs with
  | nil => simp [contentOf] at h
  | cons m ms ih =>
    by_cases hm : m.id = mid
    · have hc : applyChunk (m :: ms) mid s
          = { m with content := s } :: applyChunk ms mid s := by
        simp [applyChunk, hm]
      rw [hc, contentOf_cons]
      simp [hm]
    · have hc : applyChunk (m :: ms) mid s = m :: applyChunk ms mid s := by
        simp [applyChunk, hm]
      rw [contentOf_cons] at h
      rw [hc, contentOf_cons]
      simp only [hm, if_false] at h ⊢
      exact ih h

/-- Streaming-loop invariant: when the looked-up content equals the
accumulator, running the loop over the remaining fragments leaves the
content equal to the accumulator followed by the concatenation of those
fragments. -/
theorem contentOf_runStream (mid : String) (cs : List String) :
    ∀ (msgs : List Message) (acc : String), contentOf msgs mid = some acc →
      contentOf (runStream msgs mid acc cs) mid = some (acc ++ concatAll cs) := by
  induction cs with
  | nil =>
    intro msgs acc h
    simpa [runStream, concatAll, String.append_empty] using h
  | cons c cs ih =>
    intro msgs acc h
    have hs : (contentOf msgs mid).isSome := by rw [h]; rfl
    have h1 : contentOf (applyChunk msgs mid (acc ++ c)) mid = some (acc ++ c) :=
      contentOf_applyChunk msgs mid (acc ++ c) hs
    have h2 := ih (applyChunk msgs mid (acc ++ c)) (acc ++ c) h1
    rw [runStream, h2, concatAll, String.append_assoc]

/-- When no prior message carries the placeholder id, the freshly appended
placeholder is the message the lookup finds, with empty content. -/
theorem contentOf_append_fresh (prev : List Message) (userMsg : Message) (mid : String)
    (h : ∀ m ∈ prev ++ [userMsg], m.id ≠ mid) :
    contentOf (prev ++ [userMsg, mkModelMessage mid]) mid = some "" := by
  induction prev with
  | nil =>
    have hu : userMsg.id ≠ mid := h userMsg (by simp)
    simp [contentOf_cons, hu, mkModelMessage]
  | cons m ms ih =>
    have hm : m.id ≠ mid := h m (by simp)
    have hrest : ∀ x ∈ ms ++ [userMsg], x.id ≠ mid := by
      intro x hx
      exact h x (by simp at hx ⊢; tauto)
    have : (m :: ms) ++ [userMsg, mkModelMessage mid]
        = m :: (ms ++ [userMsg, mkModelMessage mid]) := by simp
    rw [this, contentOf_cons]
    simp only [hm, if_false]
    exact ih hrest

/-- Panel-machine invariant: the number of in-progress turns is one exactly
while the loading flag is set, and zero otherwise. -/
def panelInv (st : PanelState) : Prop :=
  st.openTurns = if st.isLoading then 1 else 0

/-- The panel invariant is preserved by every event. -/
theorem panelInv_step (st : PanelState) (e : PanelEvent) (h : panelInv st) :
    panelInv (panelStep st e) := by
  cases e with
  | send input =>
    by_cases hl : st.isLoading
    · simp [panelStep, panelInv, hl, Bool.or_true]
      simpa [panelInv, hl] using h
    · simp only [Bool.not_eq_true] at hl
      by_cases he : input.trim == ""
      · simpa [panelStep, panelInv, he] using h
      · have h0 : st.openTurns = 0 := by simpa [panelInv, hl] using h
        simp [panelStep, panelInv, he, hl, h0]
  | streamSettled =>
    by_cases hl : st.isLoading
    · simp only [panelInv, hl, if_true] at h
      simp [panelStep, panelInv, hl, h]
    · simp only [Bool.not_eq_true] at hl
      simpa [panelStep, panelInv, hl] using h

/-- The panel invariant holds in every state reachable from a state
satisfying it. -/
theorem panelInv_runPanel (evs : List PanelEvent) :
    ∀ st : PanelState, panelInv st → panelInv (runPanel st evs) := by
  induction evs with
  | nil => intro st h; simpa [runPanel] using h
  | cons e es ih =>
    intro st h
    rw [runPanel]
    exact ih _ (panelInv_step st e h)

/-! ## Claim theorems -/

/-- C1: For every finite sequence of text fragments emitted by a streaming
chat call that completes without error, the final content of the
in-progress assistant turn equals the concatenation of the fragments in
emission order, with no fragment dropped, reordered, or duplicated.
(Freshness of the placeholder id over the prior messages reflects the
uniqueness of the `Date.now()`-derived ids.) -/
theorem C1_stream_concatenation (prev : List Message) (userMsg : Message)
    (mid : String) (chunks : List String)
    (hfresh : ∀ m ∈ prev ++ [userMsg], m.id ≠ mid) :
    contentOf (handleSendStream prev userMsg mid chunks) mid
      = some (concatAll chunks) := by
  have h0 := contentOf_append_fresh prev userMsg mid hfresh
  have h1 := contentOf_runStream mid chunks _ "" h0
  simpa [handleSendStream, String.empty_append] using h1

/-- Witness for C1 at the concrete scenario from the specification:
fragments Recur / sion is / ... yield the content Recursion is... . -/
theorem C1_stream_concatenation_witness :
    (∀ m ∈ ([] : List Message)
        ++ [({ id := "u1", role := Role.user, content := "Explain recursion" } : Message)],
        m.id ≠ "m1")
  ∧ contentOf (handleSendStream []
        { id := "u1", role := Role.user, content := "Explain recursion" } "m1"
        ["Recur", "sion is", "..."]) "m1"
      = some (concatAll ["Recur", "sion is", "..."]) :=
  ⟨by decide, C1_stream_concatenation []
      { id := "u1", role := Role.user, content := "Explain recursion" } "m1"
      ["Recur", "sion is", "..."] (by decide)⟩

/-- C7: If a streaming chat request fails — at the initial call or
mid-stream — the still-open in-progress assistant turn has its content
overwritten with a clearly marked error message, so every submitted request
reaches a visible terminal state (final streamed content or an error
message), never a silently stuck in-progress indicator. -/
theorem C7_error_terminal_state (prev : List Message) (userMsg : Message)
    (mid : String)
    (hfresh : ∀ m ∈ prev ++ [userMsg], m.id ≠ mid) :
    (∀ (consumed : List String) (err : Option String),
      contentOf (handleSendOutcome prev userMsg mid
          (StreamOutcome.failure consumed err)) mid
        = some ("**Error:** " ++ errContent err))
  ∧ ∀ outcome : StreamOutcome,
      (contentOf (handleSendOutcome prev userMsg mid outcome) mid).isSome := by
  have h0 := contentOf_append_fresh prev userMsg mid hfresh
  have hfail : ∀ (consumed : List String) (err : Option String),
      contentOf (handleSendOutcome prev userMsg mid
          (StreamOutcome.failure consumed err)) mid
        = some ("**Error:** " ++ errContent err) := by
    intro consumed err
    have h1 := contentOf_runStream mid consumed _ "" h0
    have hs : (contentOf (runStream (prev ++ [userMsg, mkModelMessage mid]) mid ""
        consumed) mid).isSome := by rw [h1]; rfl
    simpa [handleSendOutcome] using contentOf_applyChunk _ mid _ hs
  refine ⟨hfail, ?_⟩
  intro outcome
  cases outcome with
  | success chunks =>
    have h1 := contentOf_runStream mid chunks _ "" h0
    simp [handleSendOutcome, h1]
  | failure consumed err =>
    rw [hfail consumed err]
    rfl

/-- Witness for C7: a request that fails after one emitted fragment leaves
the turn content overwritten with the marked error message. -/
theorem C7_error_terminal_state_witness :
    (∀ m ∈ ([] : List Message)
        ++ [({ id := "u1", role := Role.user, content := "hi" } : Message)],
        m.id ≠ "m1")
  ∧ contentOf (handleSendOutcome []
        { id := "u1", role := Role.user, content := "hi" } "m1"
        (StreamOutcome.failure ["Recur"] (some "API key is missing."))) "m1"
      = some ("**Error:** " ++ errContent (some "API key is missing.")) :=
  ⟨by decide,
    (C7_error_terminal_state [] { id := "u1", role := Role.user, content := "hi" }
      "m1" (by decide)).1 ["Recur"] (some "API key is missing.")⟩

/-- C2 counterexample: the raw text [\x7b"question":"Q"\x7d] is
syntactically valid JSON whose parse is an array holding one object with
only the question field, a shape that fails the declared quiz schema, yet
the structured-output handling returns it as a success — a
partially-populated value of the declared shape — instead of a
FormatError. -/
theorem C2_validator_counterexample :
    matchesQuizSchema (Json.arr [Json.obj [("question", Json.str "Q")]]) = false
  ∧ isFormatError (validateStructured "[\x7b\"question\":\"Q\"\x7d]"
      (some (Json.arr [Json.obj [("question", Json.str "Q")]]))
      quizFormatErrorMessage) = false
  ∧ validateStructured "[\x7b\"question\":\"Q\"\x7d]"
      (some (Json.arr [Json.obj [("question", Json.str "Q")]]))
      quizFormatErrorMessage
      = Except.ok (Json.arr [Json.obj [("question", Json.str "Q")]]) :=
  ⟨rfl, rfl, rfl⟩

/-- C2 (amended): For every raw text returned by a structured call, a
syntactically invalid text (JSON.parse throws) yields a FormatError
carrying the raw text and the user-facing message; but a syntactically
valid text is returned as the parsed value through an unchecked cast with
no validation against the declared schema, so shape-mismatched or
partially-populated values are returned as successes. -/
theorem C2_validator_amended (rawText errorMessage : String) :
    validateStructured rawText none errorMessage
      = Except.error { rawText := rawText, message := errorMessage }
  ∧ ∀ j : Json, validateStructured rawText (some j) errorMessage = Except.ok j :=
  ⟨rfl, fun _ => rfl⟩

/-- C3: Calling speak(A) and then speak(B) before utterance A completes
results in exactly one active utterance, namely B: starting a new utterance
first cancels any currently playing utterance system-wide, so the speaking
state holds for at most one utterance at a time and A never resumes or
overlaps with B.  (B must be a real, non-empty utterance and the synthesis
engine available, as the empty text and the unsupported engine make speak
return immediately.) -/
theorem C3_speak_exclusive (st : SynthState) (a b : String) (hb : b ≠ "") :
    (speak true b (speak true a st)).queue = [b]
  ∧ (a ≠ b → a ∉ (speak true b (speak true a st)).queue)
  ∧ ∀ (t : String) (s : SynthState), s.queue.length ≤ 1 →
      (speak true t s).queue.length ≤ 1 := by
  have hq : (speak true b (speak true a st)).queue = [b] := by
    simp [speak, synthEngineSpeak, synthEngineCancel, hb]
  refine ⟨hq, ?_, ?_⟩
  · intro hab
    rw [hq]
    simp [hab]
  · intro t s hs
    by_cases ht : t == ""
    · simpa [speak, ht] using hs
    · simp [speak, ht, synthEngineSpeak, synthEngineCancel]

/-- Witness for C3: from a state in which utterance A is playing, speak B
leaves exactly the utterance B queued. -/
theorem C3_speak_exclusive_witness :
    ("B" : String) ≠ ""
  ∧ (speak true "B" (speak true "A" { queue := [], isSpeaking := false })).queue = ["B"]
  ∧ ("A" : String) ≠ "B"
  ∧ "A" ∉ (speak true "B" (speak true "A" { queue := [], isSpeaking := false })).queue :=
  ⟨by decide,
    (C3_speak_exclusive { queue := [], isSpeaking := false } "A" "B" (by decide)).1,
    by decide,
    (C3_speak_exclusive { queue := [], isSpeaking := false } "A" "B" (by decide)).2.1
      (by decide)⟩

/-- C10: Calling speak with empty text, or when the synthesis engine is
unavailable, is a complete no-op at the public interface: it returns
immediately, does not cancel any currently playing utterance, and leaves
the speaking flag and all speech state unchanged. -/
theorem C10_speak_noop (supported : Bool) (text : String) (st : SynthState)
    (h : supported = false ∨ text = "") :
    speak supported text st = st := by
  cases h with
  | inl hs => simp [speak, hs]
  | inr ht => simp [speak, ht]

/-- Witness for C10: speaking the empty text over a state with an active
utterance leaves the state untouched. -/
theorem C10_speak_noop_witness :
    ((true = false) ∨ ("" : String) = "")
  ∧ speak true "" { queue := ["playing"], isSpeaking := true }
      = { queue := ["playing"], isSpeaking := true } :=
  ⟨Or.inr rfl,
    C10_speak_noop true "" { queue := ["playing"], isSpeaking := true } (Or.inr rfl)⟩

/-- Hook-machine invariant: every capturing instance captured a false
listening flag at creation (only instances created while not listening are
ever started, and an engine end never promotes the flag), the current ref
instance captured the current flag, and all instance ids are below the id
counter. -/
def hookInv (st : HookState) : Prop :=
  (∀ r ∈ st.instances, r.capturing = true → r.capturedListening = false)
  ∧ (∀ r ∈ st.instances, r.instId = st.refId → r.capturedListening = st.isListening)
  ∧ (∀ r ∈ st.instances, r.instId < st.nextId)

/-- An effect run re-establishes the full hook invariant from its first and
third conjuncts: the fresh instance captures the current flag and takes the
ref, and stale instances can no longer be the ref target. -/
theorem hookInv_effectRun (st : HookState)
    (ha : ∀ r ∈ st.instances, r.capturing = true → r.capturedListening = false)
    (hc : ∀ r ∈ st.instances, r.instId < st.nextId) :
    hookInv (effectRun st) := by
  refine ⟨?_, ?_, ?_⟩ <;> intro r hr <;>
    simp only [effectRun, List.mem_append, List.mem_singleton] at hr
  · rcases hr with hr | hr
    · exact ha r hr
    · subst hr; simp
  · rcases hr with hr | hr
    · intro hid
      exact absurd hid (Nat.ne_of_lt (hc r hr))
    · subst hr
      intro _
      rfl
  · rcases hr with hr | hr
    · exact Nat.lt_succ_of_lt (hc r hr)
    · subst hr
      exact Nat.lt_succ_self st.nextId

/-- The hook invariant is preserved by every event. -/
theorem hookInv_step (st : HookState) (e : HookEvent) (h : hookInv st) :
    hookInv (hookStep st e).1 := by
  obtain ⟨ha, hb, hc⟩ := h
  cases e with
  | render => exact hookInv_effectRun st ha hc
  | callStart =>
    by_cases hl : st.isListening
    · simp only [hookStep, hl, if_pos]
      exact ⟨ha, hb, hc⟩
    · simp only [Bool.not_eq_true] at hl
      simp only [hookStep, hl, Bool.false_eq_true, if_neg, not_false_iff]
      apply hookInv_effectRun
      · intro r hr
        simp only [startInstance, List.mem_map] at hr
        obtain ⟨r0, hr0, heq⟩ := hr
        by_cases hid : r0.instId = st.refId
        · rw [if_pos hid] at heq
          subst heq
          intro _
          rw [hb r0 hr0 hid, hl]
        · rw [if_neg hid] at heq
          subst heq
          exact ha r0 hr0
      · intro r hr
        simp only [startInstance, List.mem_map] at hr
        obtain ⟨r0, hr0, heq⟩ := hr
        by_cases hid : r0.instId = st.refId
        · rw [if_pos hid] at heq
          subst heq
          exact hc r0 hr0
        · rw [if_neg hid] at heq
          subst heq
          exact hc r0 hr0
  | callStop =>
    by_cases hl : st.isListening
    · simp only [hookStep, hl, if_pos]
      apply hookInv_effectRun
      · intro r hr
        simp only [stopInstance, List.mem_map] at hr
        obtain ⟨r0, hr0, heq⟩ := hr
        by_cases hid : r0.instId = st.refId
        · rw [if_pos hid] at heq
          subst heq
          intro hcap
          simp at hcap
        · rw [if_neg hid] at heq
          subst heq
          exact ha r0 hr0
      · intro r hr
        simp only [stopInstance, List.mem_map] at hr
        obtain ⟨r0, hr0, heq⟩ := hr
        by_cases hid : r0.instId = st.refId
        · rw [if_pos hid] at heq
          subst heq
          exact hc r0 hr0
        · rw [if_neg hid] at heq
          subst heq
          exact hc r0 hr0
    · simp only [Bool.not_eq_true] at hl
      simp only [hookStep, hl, Bool.false_eq_true, if_neg, not_false_iff]
      exact ⟨ha, hb, hc⟩
  | engineEnd i =>
    refine ⟨?_, ?_, ?_⟩ <;> intro r hr <;>
      simp only [hookStep, List.mem_map] at hr <;>
      obtain ⟨r0, hr0, heq⟩ := hr
    · by_cases hcond : r0.instId = i ∧ r0.capturing = true
      · rw [if_pos hcond] at heq
        subst heq
        intro hcap
        exact absurd (ha r0 hr0 hcond.2) (by simpa using hcap)
      · rw [if_neg hcond] at heq
        subst heq
        exact ha r0 hr0
    · by_cases hcond : r0.instId = i ∧ r0.capturing = true
      · rw [if_pos hcond] at heq
        subst heq
        exact hb r0 hr0
      · rw [if_neg hcond] at heq
        subst heq
        exact hb r0 hr0
    · by_cases hcond : r0.instId = i ∧ r0.capturing = true
      · rw [if_pos hcond] at heq
        subst heq
        exact hc r0 hr0
      · rw [if_neg hcond] at heq
        subst heq
        exact hc r0 hr0
  | engineResult i results =>
    by_cases hany : st.instances.any (fun r => r.instId == i)
    · simp only [hookStep, hany, if_pos]
      exact ⟨ha, hb, hc⟩
    · simp only [hookStep, hany, if_neg, not_false_iff]
      exact ⟨ha, hb, hc⟩

/-- The hook invariant holds along every event trace. -/
theorem hookInv_runHook (evs : List HookEvent) :
    ∀ st : HookState, hookInv st → hookInv (runHook st evs).1 := by
  induction evs with
  | nil => intro st h; simpa [runHook] using h
  | cons e es ih =>
    intro st h
    exact ih _ (hookInv_step st e h)

/-- C4 counterexample: mount the hook, call startListening (instance 0 —
created while not listening — starts capturing, and the flag flip creates
the fresh never-started instance 1), then let the engine auto-stop
instance 0: the externally observable state still says Listening, yet no
instance is capturing — the onend closure of instance 0 captured a false
flag, so capture is not restarted.  And after startListening followed by
stopListening, a late result event from instance 0 still emits a
transcript update (the onresult handler is unguarded; indeed the stop call
targeted the never-started instance 1, so instance 0 is even still
capturing), contradicting both halves of the claim. -/
theorem C4_recognition_counterexample :
    (runHook hookInit [HookEvent.callStart, HookEvent.engineEnd 0]).1
      = { isListening := true, nextId := 2
          instances := [{ instId := 0, capturedListening := false, capturing := false },
                        { instId := 1, capturedListening := true, capturing := false }]
          refId := 1 }
  ∧ ((runHook hookInit [HookEvent.callStart, HookEvent.engineEnd 0]).1.instances.all
      (fun r => r.capturing == false)) = true
  ∧ (hookStep (runHook hookInit [HookEvent.callStart, HookEvent.callStop]).1
      (HookEvent.engineResult 0 [{ best := { transcript := "late" } }])).2 = ["late"]
  ∧ (runHook hookInit [HookEvent.callStart, HookEvent.callStop]).1.isListening = false := by
  refine ⟨by decide, by decide, ?_, by decide⟩
  show [recTranscript [{ best := { transcript := "late" } }]] = ["late"]
  rfl

/-- C4 (amended): After stopListening() the externally observable state
leaves Listening, but a late result event fired by the engine still
triggers a transcript update, because the onresult handler does not check
the listening state.  And after an engine-level auto-stop, capture is
never restarted automatically: every effect re-run creates a fresh
recognition instance, only instances created while not listening are ever
started, and their onend closures captured a false listening flag, so the
restart branch never runs and the auto-stopped instance stays stopped. -/
theorem C4_recognition_amended (evs : List HookEvent) (i : Nat)
    (results : List SpeechRecognitionResult) :
    (∀ r ∈ (hookStep (runHook hookInit evs).1 (HookEvent.engineEnd i)).1.instances,
        r.instId = i → r.capturing = false)
  ∧ ((runHook hookInit evs).1.instances.any (fun r => r.instId == i) = true →
      (hookStep (runHook hookInit evs).1 (HookEvent.engineResult i results)).2
        = [recTranscript results])
  ∧ ((runHook hookInit evs).1.isListening = true →
      (hookStep (runHook hookInit evs).1 HookEvent.callStop).1.isListening = false) := by
  obtain ⟨ha, hb, hc⟩ := hookInv_runHook evs hookInit (by refine ⟨?_, ?_, ?_⟩ <;> decide)
  refine ⟨?_, ?_, ?_⟩
  · intro r hr hid
    simp only [hookStep, List.mem_map] at hr
    obtain ⟨r0, hr0, heq⟩ := hr
    by_cases hcond : r0.instId = i ∧ r0.capturing = true
    · rw [if_pos hcond] at heq
      subst heq
      exact ha r0 hr0 hcond.2
    · rw [if_neg hcond] at heq
      subst heq
      cases hcap : r0.capturing with
      | false => rfl
      | true => exact absurd ⟨hid, hcap⟩ hcond
  · intro hany
    simp [hookStep, hany]
  · intro h
    simp [hookStep, h, effectRun]

/-- Witness for C4 (amended) on concrete traces: after mount and
startListening, instance 0 exists and a result event from it emits its
transcript; the flag is set and stopListening clears it; and after the
engine auto-stops instance 0, that instance is present and not capturing. -/
theorem C4_recognition_amended_witness :
    ((runHook hookInit [HookEvent.callStart]).1.instances.any
        (fun r => r.instId == 0) = true)
  ∧ (hookStep (runHook hookInit [HookEvent.callStart]).1
        (HookEvent.engineResult 0 [{ best := { transcript := "late" } }])).2
      = [recTranscript [{ best := { transcript := "late" } }]]
  ∧ ((runHook hookInit [HookEvent.callStart]).1.isListening = true)
  ∧ ((hookStep (runHook hookInit [HookEvent.callStart]).1 HookEvent.callStop).1.isListening
      = false)
  ∧ (({ instId := 0, capturedListening := false, capturing := false } : RecInstance)
        ∈ (hookStep (runHook hookInit [HookEvent.callStart]).1
            (HookEvent.engineEnd 0)).1.instances)
  ∧ (({ instId := 0, capturedListening := false, capturing := false } : RecInstance).capturing
      = false) :=
  ⟨by decide,
   (C4_recognition_amended [HookEvent.callStart] 0
      [{ best := { transcript := "late" } }]).2.1 (by decide),
   by decide,
   (C4_recognition_amended [HookEvent.callStart] 0 []).2.2 (by decide),
   by decide,
   (C4_recognition_amended [HookEvent.callStart] 0 []).1
      { instId := 0, capturedListening := false, capturing := false } (by decide) rfl⟩

/-- C5: Whenever reference notes are supplied with a new chat question, the
message sent to the model combines the context block, separator, and
question concatenated exactly in the order
[My Notes] newline notes-context blank-line [My Question] newline question,
following the fixed instruction sentence that the source prepends. -/
theorem C5_notes_message_format (apiKey : Option String) (history : List Message)
    (question : String) (file : Option FilePayload) (ns : List Note)
    (hkey : keyMissing apiKey = false) (hns : ns ≠ []) :
    ∃ req : ChatStreamRequest,
      generateExplanationStream apiKey history question file (some ns) = Except.ok req
      ∧ req.message
          = notesInstruction ++ "\n\n"
            ++ ("[My Notes]\n" ++ notesContext ns ++ "\n\n[My Question]\n" ++ question) := by
  have hlen : 0 < ns.length := List.length_pos.mpr hns
  have hsplit : ("\n\n[My Notes]\n" : String) = "\n\n" ++ "[My Notes]\n" := by decide
  refine ⟨{ model := "gemini-2.5-flash"
            systemInstruction := explainerSystemInstruction
            history := buildHistory history
            message := buildFinalMessage question (some ns)
            file := file }, ?_, ?_⟩
  · simp [generateExplanationStream, hkey]
  · show buildFinalMessage question (some ns)
      = notesInstruction ++ "\n\n"
        ++ ("[My Notes]\n" ++ notesContext ns ++ "\n\n[My Question]\n" ++ question)
    rw [buildFinalMessage]
    simp only [hlen, if_pos]
    simp only [← String.append_assoc]
    rw [String.append_assoc notesInstruction "\n\n" "[My Notes]\n", ← hsplit]

/-- Witness for C5 at a concrete note and question. -/
theorem C5_notes_message_format_witness :
    keyMissing (some "k") = false
  ∧ ([({ id := "n1", title := "T", subject := "S", content := "C",
           lastModified := "d" } : Note)] ≠ ([] : List Note))
  ∧ ∃ req : ChatStreamRequest,
      generateExplanationStream (some "k") [] "what is S?" none
        (some [{ id := "n1", title := "T", subject := "S", content := "C",
                 lastModified := "d" }]) = Except.ok req
      ∧ req.message
          = notesInstruction ++ "\n\n"
            ++ ("[My Notes]\n"
              ++ notesContext [{ id := "n1", title := "T", subject := "S",
                                 content := "C", lastModified := "d" }]
              ++ "\n\n[My Question]\n" ++ "what is S?") :=
  ⟨rfl, by decide,
    C5_notes_message_format (some "k") [] "what is S?" none
      [{ id := "n1", title := "T", subject := "S", content := "C",
         lastModified := "d" }] rfl (by decide)⟩

/-- C6: For every Model Gateway operation (single-shot text, structured
generation, streaming generation, chat-session streaming, image
generation), if no credential is configured the operation fails with the
configuration error before issuing any network work; no operation proceeds
without a credential. -/
theorem C6_credential_guard (apiKey : Option String) (history : List Message)
    (newMessage : String) (file : Option FilePayload) (notes : Option (List Note))
    (textToSummarize topic prompt language interests code goalTitle
      goalDescription aspectRatio : String) (numberOfImages : Nat)
    (hmiss : keyMissing apiKey = true) :
    generateExplanationStream apiKey history newMessage file notes
      = Except.error (GatewayError.configurationError "API key is missing.")
  ∧ summarizeText apiKey textToSummarize file
      = Except.error (GatewayError.configurationError "API key is missing.")
  ∧ generateQuiz apiKey topic
      = Except.error (GatewayError.configurationError "API key is missing.")
  ∧ generateImages apiKey prompt numberOfImages aspectRatio
      = Except.error (GatewayError.configurationError "API key is missing.")
  ∧ getSkillFeedback apiKey goalTitle goalDescription
      = Except.error (GatewayError.configurationError "API key is missing.")
  ∧ getProjectIdeas apiKey interests
      = Except.error (GatewayError.configurationError "API key is missing.")
  ∧ debugCode apiKey code
      = Except.error (GatewayError.configurationError "API key is missing.")
  ∧ startInterviewChat apiKey history newMessage
      = Except.error (GatewayError.configurationError "API key is missing.")
  ∧ generateCodeSnippetStream apiKey prompt language
      = Except.error (GatewayError.configurationError "API key is missing.")
  ∧ generateWebsiteCode apiKey prompt
      = Except.error (GatewayError.configurationError "API key is missing.") := by
  refine ⟨?_, ?_, ?_, ?_, ?_, ?_, ?_, ?_, ?_, ?_⟩ <;>
    simp [generateExplanationStream, summarizeText, generateQuiz, generateImages,
      getSkillFeedback, getProjectIdeas, debugCode, startInterviewChat,
      generateCodeSnippetStream, generateWebsiteCode, hmiss]

/-- Witness for C6 with the credential absent. -/
theorem C6_credential_guard_witness :
    keyMissing none = true
  ∧ generateQuiz none "algebra"
      = Except.error (GatewayError.configurationError "API key is missing.")
  ∧ generateImages none "a cat" 2 "1:1"
      = Except.error (GatewayError.configurationError "API key is missing.") :=
  ⟨rfl,
    (C6_credential_guard none [] "" none none "" "algebra" "a cat" "" "" "" "" "" "1:1"
      2 rfl).2.2.1,
    (C6_credential_guard none [] "" none none "" "algebra" "a cat" "" "" "" "" "" "1:1"
      2 rfl).2.2.2.1⟩

/-- C8: At most one assistant turn per conversation is in the in-progress
state at any instant: while a streamed response is open, a second send
cannot be issued — the send path returns without effect and the submit
control is disabled — until the stream is finalized or fails. -/
theorem C8_single_in_progress_turn (st : PanelState) (input text : String)
    (hasFile : Bool) (evs : List PanelEvent) (h : st.isLoading = true) :
    panelStep st (PanelEvent.send input) = st
  ∧ chatInputSendFires text hasFile true = false
  ∧ chatInputSendDisabled true text hasFile = true
  ∧ (runPanel panelInit evs).openTurns ≤ 1 := by
  refine ⟨?_, ?_, ?_, ?_⟩
  · simp [panelStep, h]
  · simp [chatInputSendFires]
  · simp [chatInputSendDisabled]
  · have hinv := panelInv_runPanel evs panelInit (by simp [panelInv, panelInit])
    rw [panelInv] at hinv
    rw [hinv]
    split <;> simp

/-- Witness for C8: with a stream open, a further send attempt leaves the
panel state unchanged, and over a concrete event list the number of
in-progress turns never exceeds one. -/
theorem C8_single_in_progress_turn_witness :
    ({ isLoading := true, openTurns := 1 } : PanelState).isLoading = true
  ∧ panelStep { isLoading := true, openTurns := 1 } (PanelEvent.send "hello")
      = { isLoading := true, openTurns := 1 }
  ∧ chatInputSendFires "hello" false true = false
  ∧ (runPanel panelInit
      [PanelEvent.send "a", PanelEvent.send "b", PanelEvent.streamSettled,
       PanelEvent.send "c"]).openTurns ≤ 1 :=
  ⟨rfl,
    (C8_single_in_progress_turn { isLoading := true, openTurns := 1 } "hello" "hello"
      false [PanelEvent.send "a", PanelEvent.send "b", PanelEvent.streamSettled,
        PanelEvent.send "c"] rfl).1,
    (C8_single_in_progress_turn { isLoading := true, openTurns := 1 } "hello" "hello"
      false [PanelEvent.send "a", PanelEvent.send "b", PanelEvent.streamSettled,
        PanelEvent.send "c"] rfl).2.1,
    (C8_single_in_progress_turn { isLoading := true, openTurns := 1 } "hello" "hello"
      false [PanelEvent.send "a", PanelEvent.send "b", PanelEvent.streamSettled,
        PanelEvent.send "c"] rfl).2.2.2⟩

/-- C9: Each recognized speech result, interim or final, is delivered as a
full-text replacement of the live transcript, never an append: after each
result event the input field equals the full recognized text of that
event, independently of the previous field content, so interim hello
followed by final hello world yields hello world, not hellohello world. -/
theorem C9_full_text_replacement (prevText altText : String)
    (results : List SpeechRecognitionResult) :
    chatInputOnResult prevText results = recTranscript results
  ∧ chatInputOnResult prevText results = chatInputOnResult altText results
  ∧ chatInputOnResult (chatInputOnResult ""
      [{ best := { transcript := "hello" } }])
      [{ best := { transcript := "hello world" } }] = "hello world" :=
  ⟨rfl, rfl, by decide⟩
